import Mathlib

/-!
Shallow embedding of the GreenSkiesUltra emission engine
(src/greenskies_final.py) and proofs of its specified properties.

Python floats are modelled as real numbers (exact arithmetic); Python
ints (the SAF slider value) as integers; Python strings as `String`;
`float(...)` parsing, which either yields a value or raises, as
`Option ℝ`; the CSV history file as `Option (List Row)` where `none`
is "the file does not exist" and a `Row` is the list of cells the csv
writer receives.
-/

namespace GreenSkies

/-! ### Constants (src/greenskies_final.py lines 20-27) -/

noncomputable def RF_MULTIPLIER : ℝ := 1.9
noncomputable def OFFSET_COST_PER_KG : ℝ := 0.60
noncomputable def SAF_MAX_REDUCTION_PERCENT : ℝ := 0.80
noncomputable def CO2_TO_FUEL_FACTOR : ℝ := 3.16
noncomputable def FUEL_DENSITY_KG_LITER : ℝ := 0.8
noncomputable def SHORT_HAUL_MAX_KM : ℝ := 1500
noncomputable def SHORT_HAUL_LTO_CO2_FIXED_KG : ℝ := 50.0
noncomputable def LONG_HAUL_LTO_CO2_FIXED_KG : ℝ := 150.0

/-! ### Emission estimator (lines 83-95) -/

/-- `estimate_co2(distance_km, base_factor, rf)` from lines 83-88:
fixed LTO surcharge (50 kg if `distance_km <= 1500`, else 150 kg), then
`total = distance_km * base_factor + fixed`, then `total *= 1.9`
when `rf` is set. -/
noncomputable def estimate_co2 (distance_km base_factor : ℝ) (rf : Bool) : ℝ :=
  let fixed := if distance_km ≤ SHORT_HAUL_MAX_KM then SHORT_HAUL_LTO_CO2_FIXED_KG
               else LONG_HAUL_LTO_CO2_FIXED_KG
  let total := distance_km * base_factor + fixed
  if rf then total * RF_MULTIPLIER else total

/-- `fuel_liters_from_co2` (lines 90-92). -/
noncomputable def fuel_liters_from_co2 (co2_kg : ℝ) : ℝ :=
  co2_kg / CO2_TO_FUEL_FACTOR / FUEL_DENSITY_KG_LITER

/-- `trees_needed` (lines 94-95). -/
noncomputable def trees_needed (co2 : ℝ) : ℝ :=
  co2 / 22.0

/-- The SAF-blend reduction step of `calculate_action` (lines 800-802):
`if saf_pct > 0: co2 *= (1 - saf_pct / 100 * SAF_MAX_REDUCTION_PERCENT)`.
`saf_pct` is the integer value of the Tk `IntVar` slider. -/
noncomputable def apply_saf (co2 : ℝ) (saf_pct : ℤ) : ℝ :=
  if saf_pct > 0 then co2 * (1 - (saf_pct : ℝ) / 100 * SAF_MAX_REDUCTION_PERCENT)
  else co2

/-- The CO₂ value `calculate_action` computes for an already-resolved
distance (lines 798-802): `estimate_co2` followed by the SAF step. -/
noncomputable def co2_with_saf (distance_km base_factor : ℝ) (rf : Bool) (saf_pct : ℤ) : ℝ :=
  apply_saf (estimate_co2 distance_km base_factor rf) saf_pct

/-- Estimator as the spec words it (§4.3 steps 1-3): base CO₂ is
`distance * factor` plus the LTO surcharge (50 kg up to and including
1500 km, 150 kg beyond), and the radiative-forcing multiplier 1.9 is
applied to the total including the surcharge. -/
noncomputable def spec_estimate_co2 (distance_km base_factor : ℝ) (rf : Bool) : ℝ :=
  (distance_km * base_factor + (if distance_km ≤ 1500 then 50.0 else 150.0))
    * (if rf then 1.9 else 1)

/-- C1: For every distance and positive base factor, the emission
estimate is `distance * factor` plus an LTO surcharge of 50 kg when
`distance_km ≤ 1500` (including exactly 1500) and 150 kg when
`distance_km > 1500`, and the radiative-forcing multiplier 1.9 is
applied to the total after the LTO addition, not before. -/
theorem estimate_co2_matches_spec (d f : ℝ) (rf : Bool) (_hf : 0 < f) :
    estimate_co2 d f rf = spec_estimate_co2 d f rf := by
  unfold estimate_co2 spec_estimate_co2 SHORT_HAUL_MAX_KM
    SHORT_HAUL_LTO_CO2_FIXED_KG LONG_HAUL_LTO_CO2_FIXED_KG RF_MULTIPLIER
  cases rf <;> by_cases h : d ≤ (1500 : ℝ) <;> simp [h]

/-- Witness for C1: at distance 1500 the surcharge is the short-haul
one and RF multiplies the whole sum. -/
theorem estimate_co2_matches_spec_witness :
    estimate_co2 1500 1 true = spec_estimate_co2 1500 1 true :=
  estimate_co2_matches_spec 1500 1 true zero_lt_one

/-- C7: with `saf_blend_percent = 0` the computed CO₂ equals the
estimate with the SAF reduction step skipped entirely, and with
`saf_blend_percent = 100` it is exactly `0.2` times the
`saf_blend_percent = 0` value, all else equal. -/
theorem saf_zero_skips_and_hundred_is_fifth (d f : ℝ) (rf : Bool) :
    co2_with_saf d f rf 0 = estimate_co2 d f rf ∧
    co2_with_saf d f rf 100 = 0.2 * co2_with_saf d f rf 0 := by
  unfold co2_with_saf apply_saf SAF_MAX_REDUCTION_PERCENT
  constructor
  · simp
  · simp only [show ((100 : ℤ) > 0) = True by simp, if_true, if_pos]
    norm_num
    ring

/-- The base estimate is strictly increasing in distance for a positive
factor: the surcharge only ever jumps upward at the 1500 km boundary. -/
theorem estimate_co2_strictMono (f : ℝ) (hf : 0 < f) (rf : Bool) {d1 d2 : ℝ}
    (h : d1 < d2) : estimate_co2 d1 f rf < estimate_co2 d2 f rf := by
  have hbase : d1 * f + (if d1 ≤ SHORT_HAUL_MAX_KM then SHORT_HAUL_LTO_CO2_FIXED_KG
        else LONG_HAUL_LTO_CO2_FIXED_KG)
      < d2 * f + (if d2 ≤ SHORT_HAUL_MAX_KM then SHORT_HAUL_LTO_CO2_FIXED_KG
        else LONG_HAUL_LTO_CO2_FIXED_KG) := by
    have hmul : d1 * f < d2 * f := mul_lt_mul_of_pos_right h hf
    unfold SHORT_HAUL_MAX_KM SHORT_HAUL_LTO_CO2_FIXED_KG LONG_HAUL_LTO_CO2_FIXED_KG
    by_cases h1 : d1 ≤ (1500 : ℝ) <;> by_cases h2 : d2 ≤ (1500 : ℝ)
    · simpa [h1, h2] using add_lt_add_right hmul (50.0 : ℝ)
    · simp only [h1, h2, if_true, if_false]
      have h50 : (50.0 : ℝ) < 150.0 := by norm_num
      exact add_lt_add hmul h50
    · exact absurd (le_trans h.le h2) h1
    · simpa [h1, h2] using add_lt_add_right hmul (150.0 : ℝ)
  unfold estimate_co2
  cases rf
  · simpa using hbase
  · simp only [if_true, Bool.if_true_left]
    have hrf : (0 : ℝ) < RF_MULTIPLIER := by unfold RF_MULTIPLIER; norm_num
    simpa using mul_lt_mul_of_pos_right hbase hrf

/-- The SAF multiplier `1 - saf/100 * 0.8` is positive whenever
`saf_pct ≤ 100`, so `apply_saf` preserves strict order. -/
theorem apply_saf_lt_of_lt {x y : ℝ} (saf : ℤ) (hsaf : saf ≤ 100)
    (hxy : x < y) : apply_saf x saf < apply_saf y saf := by
  unfold apply_saf
  by_cases hpos : saf > 0
  · have hcast : (saf : ℝ) ≤ 100 := by exact_mod_cast hsaf
    have hmult : (0 : ℝ) < 1 - (saf : ℝ) / 100 * SAF_MAX_REDUCTION_PERCENT := by
      unfold SAF_MAX_REDUCTION_PERCENT
      nlinarith
    simpa [hpos] using mul_lt_mul_of_pos_right hxy hmult
  · simpa [hpos] using hxy

/-- C6: for a fixed aircraft with positive base factor and fixed
radiative-forcing and SAF settings (SAF within its domain), the
computed CO₂ is strictly increasing in distance. -/
theorem co2_strictly_increasing_in_distance (f : ℝ) (rf : Bool) (saf : ℤ)
    (d1 d2 : ℝ) (hf : 0 < f) (_hd1 : 0 ≤ d1) (h : d1 < d2) (hsaf : saf ≤ 100) :
    co2_with_saf d1 f rf saf < co2_with_saf d2 f rf saf :=
  apply_saf_lt_of_lt saf hsaf (estimate_co2_strictMono f hf rf h)

/-- Witness for C6 at distances 0 < 1. -/
theorem co2_strictly_increasing_in_distance_witness :
    co2_with_saf 0 1 true 50 < co2_with_saf 1 1 true 50 :=
  co2_strictly_increasing_in_distance 1 true 50 0 1 zero_lt_one
    (le_refl 0) zero_lt_one (by decide)

/-! ### Great-circle distance (lines 76-81) -/

/-- `math.radians`: degrees to radians. -/
noncomputable def radians (x : ℝ) : ℝ := x * Real.pi / 180

/-- `math.atan2(y, x)`: the two-argument arctangent. -/
noncomputable def atan2 (y x : ℝ) : ℝ :=
  if 0 < x then Real.arctan (y / x)
  else if x < 0 then
    (if 0 ≤ y then Real.arctan (y / x) + Real.pi else Real.arctan (y / x) - Real.pi)
  else
    (if 0 < y then Real.pi / 2 else if y < 0 then -(Real.pi / 2) else 0)

/-- `haversine_km(lat1, lon1, lat2, lon2)` from lines 76-81:
`a = sin²(Δφ/2) + cos φ1 · cos φ2 · sin²(Δλ/2)`,
`c = 2·atan2(√a, √(1-a))`, result `6371.0 · c`. -/
noncomputable def haversine_km (lat1 lon1 lat2 lon2 : ℝ) : ℝ :=
  let R : ℝ := 6371.0
  let phi1 := radians lat1
  let phi2 := radians lat2
  let dphi := radians (lat2 - lat1)
  let dlambda := radians (lon2 - lon1)
  let a := Real.sin (dphi / 2) ^ 2 +
    Real.cos phi1 * Real.cos phi2 * Real.sin (dlambda / 2) ^ 2
  let c := 2 * atan2 (Real.sqrt a) (Real.sqrt (1 - a))
  R * c

/-- The squared half-angle sine term only depends on the coordinate
difference up to sign. -/
theorem sin_half_radians_sub_sq_comm (u v : ℝ) :
    Real.sin (radians (u - v) / 2) ^ 2 = Real.sin (radians (v - u) / 2) ^ 2 := by
  have hneg : radians (u - v) / 2 = -(radians (v - u) / 2) := by
    unfold radians; ring
  rw [hneg, Real.sin_neg, neg_sq]

/-- C5: the great-circle distance is symmetric in its two endpoints,
and the distance from any point to itself is 0. -/
theorem haversine_km_symm_and_self (lat1 lon1 lat2 lon2 : ℝ) :
    haversine_km lat1 lon1 lat2 lon2 = haversine_km lat2 lon2 lat1 lon1 ∧
    haversine_km lat1 lon1 lat1 lon1 = 0 := by
  constructor
  · simp only [haversine_km]
    rw [sin_half_radians_sub_sq_comm lat2 lat1, sin_half_radians_sub_sq_comm lon2 lon1,
      mul_comm (Real.cos (radians lat1)) (Real.cos (radians lat2))]
  · simp only [haversine_km]
    have hz : radians (lat1 - lat1) = 0 ∧ radians (lon1 - lon1) = 0 := by
      unfold radians; constructor <;> ring
    rw [hz.1, hz.2]
    simp only [zero_div, Real.sin_zero, ne_eq, OfNat.ofNat_ne_zero,
      not_false_eq_true, zero_pow, mul_zero, add_zero, Real.sqrt_zero, sub_zero,
      Real.sqrt_one]
    unfold atan2
    rw [if_pos zero_lt_one]
    simp [Real.arctan_zero]

/-! ### History ledger (lines 97-104, 917-938, 978-1000) -/

/-- A CSV row as handed to `csv.writer.writerow`: a list of cells. -/
abbrev Row := List String

/-- The ledger file: `none` models "history.csv does not exist",
`some rows` models the file holding those physical rows in order. -/
abbrev Store := Option (List Row)

/-- The `header` list of `log_history_row` (line 98). -/
def HEADER : Row :=
  ["timestamp", "origin", "destination", "distance_km", "aircraft", "rf",
   "saf_pct", "co2_kg", "fuel_liters", "trees", "offset_inr"]

/-- `log_history_row(row)` (lines 97-104): open `history.csv` in append
mode (creating it when missing), write the header first when the file
did not exist, then append the data row. -/
def log_history_row (store : Store) (row : Row) : Store :=
  match store with
  | none => some [HEADER, row]
  | some rows => some (rows ++ [row])

/-- Reading the ledger as `_refresh_history_tree` does (lines 925-938):
a missing file yields nothing; otherwise `csv.DictReader` treats the
first physical row as the header and yields the remaining data rows in
file order. -/
def read_all (store : Store) : List Row :=
  match store with
  | none => []
  | some [] => []
  | some (_ :: data) => data

/-- The ledger state after appending each row of `rows` in order,
starting from a non-existent file. -/
def appendAll (rows : List Row) : Store :=
  rows.foldl log_history_row none

inductive HistErr
  | NoHistoryAvailable
deriving DecidableEq

/-- `export_history` (lines 978-1000): when `history.csv` does not
exist it reports "No History" and writes nothing; otherwise the chosen
destination receives `src.read()` verbatim — the full file content,
returned here as the written row sequence. -/
def export_history (store : Store) : Except HistErr (List Row) :=
  match store with
  | none => .error .NoHistoryAvailable
  | some rows => .ok rows

theorem foldl_log_cons (rows : List Row) (acc : List Row) :
    rows.foldl log_history_row (some (HEADER :: acc))
      = some (HEADER :: (acc ++ rows)) := by
  induction rows generalizing acc with
  | nil => simp
  | cons r rs ih =>
    simp only [List.foldl_cons, log_history_row]
    rw [show (HEADER :: acc) ++ [r] = HEADER :: (acc ++ [r]) from rfl, ih]
    simp

/-- C8: appending N entries and reading them all back returns exactly
those N entries in append order; the backing file is created only by
the first append (no appends leaves it non-existent), and reading a
non-existent file yields the empty sequence rather than an error. -/
theorem history_roundtrip (rows : List Row) :
    read_all (appendAll rows) = rows ∧
    appendAll ([] : List Row) = none ∧
    read_all (none : Store) = [] := by
  refine ⟨?_, rfl, rfl⟩
  cases rows with
  | nil => rfl
  | cons r rs =>
    unfold appendAll
    simp only [List.foldl_cons, log_history_row]
    rw [show ([HEADER, r] : List Row) = HEADER :: ([r] ++ []) from by simp]
    rw [show (some (HEADER :: ([r] ++ []))) = some (HEADER :: ([r] ++ ([] : List Row))) from rfl]
    rw [show ([r] ++ ([] : List Row)) = [r] from by simp]
    rw [foldl_log_cons rs [r]]
    rfl

/-- C9: export returns the full backing file verbatim once anything has
been appended, and fails with `NoHistoryAvailable` — writing nothing —
when nothing has ever been appended. -/
theorem export_verbatim_or_error (rows : List Row) :
    (rows = [] → export_history (appendAll rows) = .error .NoHistoryAvailable) ∧
    (rows ≠ [] → export_history (appendAll rows) = .ok (HEADER :: rows)) := by
  constructor
  · intro h; subst h; rfl
  · intro h
    cases rows with
    | nil => exact absurd rfl h
    | cons r rs =>
      unfold appendAll
      simp only [List.foldl_cons, log_history_row]
      rw [show ([HEADER, r] : List Row) = HEADER :: ([r] ++ ([] : List Row)) from by simp]
      rw [show ([r] ++ ([] : List Row)) = [r] from by simp]
      rw [foldl_log_cons rs [r]]
      rfl

/-- Witness for C9: exporting an empty ledger errors; exporting after
one append returns the header plus that row. -/
theorem export_verbatim_or_error_witness :
    export_history (appendAll []) = .error .NoHistoryAvailable ∧
    export_history (appendAll [["r1"]]) = .ok (HEADER :: [["r1"]]) :=
  ⟨(export_verbatim_or_error []).1 rfl,
   (export_verbatim_or_error [["r1"]]).2 (by decide)⟩

/-! ### Emission-factor loader (lines 48-59) -/

/-- One CSV row of `emission_factors_extended.csv` as
`load_csv_factors` sees it: the `AircraftType` cell and the outcome of
`float(row['EmissionFactor_kgCO2perkm'])` — `some v` when the parse
succeeds with value `v`, `none` when `float` raises. -/
structure CsvRow where
  aircraftType : String
  factorField : Option ℝ

/-- `load_csv_factors` (lines 48-59): fold the rows into a dict,
assigning `d[AircraftType] = parsed factor` on parse success and
silently skipping the row (`except: pass`) on failure. Later rows with
the same key overwrite earlier ones. -/
def load_csv_factors (rows : List CsvRow) : String → Option ℝ :=
  rows.foldl
    (fun d row =>
      match row.factorField with
      | some v => fun k => if k = row.aircraftType then some v else d k
      | none => d)
    (fun _ => none)

theorem load_step_skips_failed (rows : List CsvRow) (d : String → Option ℝ) :
    rows.foldl
      (fun d row =>
        match row.factorField with
        | some v => fun k => if k = row.aircraftType then some v else d k
        | none => d) d
    = (rows.filter (fun r => r.factorField.isSome)).foldl
      (fun d row =>
        match row.factorField with
        | some v => fun k => if k = row.aircraftType then some v else d k
        | none => d) d := by
  induction rows generalizing d with
  | nil => rfl
  | cons r rs ih =>
    cases hr : r.factorField with
    | some v => simp [List.filter_cons, hr, ih]
    | none => simp [List.filter_cons, hr, ih]

/-- The parsed factor of the last row carrying key `k` whose factor
cell parsed successfully, skipping parse-failed rows; `none` when no
such row exists. This is the dictionary semantics of lines 54-58
stated directly: it is oblivious to parse-failed rows and passes every
successfully parsed value through verbatim, whatever its sign. -/
def last_parsed_factor (rows : List CsvRow) (k : String) : Option ℝ :=
  match rows with
  | [] => none
  | r :: rs =>
    match last_parsed_factor rs k with
    | some v => some v
    | none => if r.aircraftType = k then r.factorField else none

theorem load_foldl_eq_last_parsed (rows : List CsvRow)
    (d : String → Option ℝ) (k : String) :
    rows.foldl
      (fun d row =>
        match row.factorField with
        | some v => fun k => if k = row.aircraftType then some v else d k
        | none => d) d k
    = match last_parsed_factor rows k with
      | some v => some v
      | none => d k := by
  induction rows generalizing d with
  | nil => rfl
  | cons r rs ih =>
    simp only [List.foldl_cons]
    rw [ih]
    cases hrs : last_parsed_factor rs k with
    | some v => simp [last_parsed_factor, hrs]
    | none =>
      simp only [last_parsed_factor, hrs]
      cases hr : r.factorField with
      | some w =>
        by_cases hkk : r.aircraftType = k
        · simp [hr, hkk]
        · have hkk' : ¬ (k = r.aircraftType) := fun h => hkk h.symm
          simp [hr, hkk, hkk']
      | none => simp [hr]

/-- Counterexample to C4 as stated: a row whose factor cell parses to
`-1` is kept in the mapping with the non-positive value `-1`. -/
theorem load_csv_factors_positivity_cex :
    load_csv_factors [⟨"X", some (-1)⟩] "X" = some (-1) ∧ ¬ ((0 : ℝ) < -1) := by
  constructor
  · rfl
  · norm_num

/-- C4 amended: rows whose factor fails numeric parsing are dropped
silently without aborting the load — the mapping is unchanged when the
failed rows are deleted — and each key maps to the verbatim parsed
factor of its last successfully parsed row; no positivity check is
applied, so non-positive parsed factors are kept. -/
theorem load_csv_factors_amended (rows : List CsvRow) (k : String) :
    load_csv_factors rows k = last_parsed_factor rows k ∧
    load_csv_factors rows k
      = load_csv_factors (rows.filter (fun r => r.factorField.isSome)) k := by
  constructor
  · unfold load_csv_factors
    rw [load_foldl_eq_last_parsed]
    cases last_parsed_factor rows k <;> rfl
  · exact congrFun (load_step_skips_failed rows (fun _ => none)) k

/-! ### The calculation action (lines 763-830)

Inputs are modelled after `_parse_iata_from_combo` has run: `origin`
and `dest` are the parsed IATA strings (`""` when the field is empty).
`manual` is the outcome of `float(self.dist_var.get().strip())`:
`some d` when the text parses to `d`, `none` when `float` raises
(including the empty field). `airports` and `factors` are the loaded
lookup dicts; `saf_pct` is the integer slider value. `entryOf`
abstracts lines 826-828, which render the result (plus a wall-clock
timestamp) into the CSV row that is appended — the rendering itself is
presentation and irrelevant to the properties proved here. UI label
updates are out of scope. -/

/-- The three error modals `calculate_action` can show before logging:
"Airport Not Found" (lines 772-775), "Input Required" (lines 783-786)
and "Aircraft Required" (lines 790-793). -/
inductive CalcErr
  | AirportNotFound
  | InputRequired
  | AircraftRequired
deriving DecidableEq

/-- The quantities `calculate_action` computes on success
(lines 798-806). -/
structure CalcResult where
  dist : ℝ
  co2 : ℝ
  fuel_l : ℝ
  trees : ℝ
  cost : ℝ

/-- Distance resolution, lines 770-786: when both airport fields are
non-empty the codes must both resolve (else "Airport Not Found") and
the haversine distance is used; otherwise the manual field is parsed
(else "Input Required"). -/
noncomputable def resolve_distance (airports : String → Option (ℝ × ℝ))
    (origin dest : String) (manual : Option ℝ) : Except CalcErr ℝ :=
  if origin ≠ "" ∧ dest ≠ "" then
    match airports origin, airports dest with
    | some a, some b => .ok (haversine_km a.1 a.2 b.1 b.2)
    | _, _ => .error CalcErr.AirportNotFound
  else
    match manual with
    | some d => .ok d
    | none => .error CalcErr.InputRequired

/-- `calculate_action` (lines 763-830): resolve the distance, check
the aircraft, compute CO₂ (with the SAF step), fuel, trees and offset
cost, then append one entry to the history ledger. On any error path
the method returns before touching the ledger. -/
noncomputable def calculate_action (airports : String → Option (ℝ × ℝ))
    (factors : String → Option ℝ) (entryOf : CalcResult → Row)
    (origin dest : String) (manual : Option ℝ) (ac : String)
    (rf : Bool) (saf_pct : ℤ) (store : Store) :
    Except CalcErr CalcResult × Store :=
  match resolve_distance airports origin dest manual with
  | .error e => (.error e, store)
  | .ok dist =>
    match factors ac with
    | none => (.error CalcErr.AircraftRequired, store)
    | some base_factor =>
      let co2 := co2_with_saf dist base_factor rf saf_pct
      let res : CalcResult :=
        ⟨dist, co2, fuel_liters_from_co2 co2, trees_needed co2,
         co2 * OFFSET_COST_PER_KG⟩
      (.ok res, log_history_row store (entryOf res))

/-- `true` exactly on the non-error outcome. -/
def calcOk : Except CalcErr CalcResult → Bool
  | .ok _ => true
  | .error _ => false

/-- Counterexample to C2 as stated: with `saf_blend_percent = 150`
(outside [0,100]) and otherwise-valid inputs the calculation succeeds
— no `InvalidSafBlend` (or any) validation error is raised. -/
theorem saf_out_of_range_accepted_cex :
    calcOk ((calculate_action (fun _ => none)
      (fun k => if k = "A320" then some (1 : ℝ) else none)
      (fun _ => ([] : Row)) "" "" (some 100) "A320" false 150 none).1) = true := rfl

/-- C2 amended: `calculate_action` performs no range validation on
`saf_blend_percent`: for every integer value, including values outside
[0,100], it computes a result, applying the proportional SAF reduction
whenever the value is positive. -/
theorem calc_applies_saf_without_validation
    (airports : String → Option (ℝ × ℝ)) (factors : String → Option ℝ)
    (entryOf : CalcResult → Row) (dest ac : String) (d f : ℝ)
    (rf : Bool) (saf_pct : ℤ) (store : Store)
    (hfac : factors ac = some f) :
    (calculate_action airports factors entryOf "" dest (some d) ac rf saf_pct store).1
      = .ok ⟨d, co2_with_saf d f rf saf_pct,
          fuel_liters_from_co2 (co2_with_saf d f rf saf_pct),
          trees_needed (co2_with_saf d f rf saf_pct),
          co2_with_saf d f rf saf_pct * OFFSET_COST_PER_KG⟩ := by
  unfold calculate_action resolve_distance
  simp [hfac]

/-- Witness for amended C2 at `saf_pct = 150`. -/
theorem calc_applies_saf_without_validation_witness :
    (calculate_action (fun _ => none)
      (fun k => if k = "A320" then some (1 : ℝ) else none)
      (fun _ => ([] : Row)) "" "" (some 100) "A320" false 150 none).1
      = .ok ⟨100, co2_with_saf 100 1 false 150,
          fuel_liters_from_co2 (co2_with_saf 100 1 false 150),
          trees_needed (co2_with_saf 100 1 false 150),
          co2_with_saf 100 1 false 150 * OFFSET_COST_PER_KG⟩ :=
  calc_applies_saf_without_validation (fun _ => none)
    (fun k => if k = "A320" then some (1 : ℝ) else none)
    (fun _ => ([] : Row)) "" "A320" 100 1 false 150 none rfl

/-- Counterexample to C3 as stated: a negative manual distance (-100)
is not rejected — the calculation succeeds and an entry IS appended to
the ledger (entry count grows from 0 to 1). -/
theorem negative_distance_logged_cex :
    calcOk ((calculate_action (fun _ => none)
      (fun k => if k = "A320" then some (1 : ℝ) else none)
      (fun _ => ([] : Row)) "" "" (some (-100)) "A320" false 0 none).1) = true ∧
    (calculate_action (fun _ => none)
      (fun k => if k = "A320" then some (1 : ℝ) else none)
      (fun _ => ([] : Row)) "" "" (some (-100)) "A320" false 0 none).2
      = some [HEADER, []] :=
  ⟨rfl, rfl⟩

/-- C3 amended: on each error the code actually checks — unknown
airport code with both fields filled, unparseable manual distance, or
aircraft type missing from the factor table — the error is surfaced to
the caller and the ledger is left exactly as it was; negative
distances and non-positive factors are not among the checks, so they
are not rejected. -/
theorem calc_error_leaves_ledger (airports : String → Option (ℝ × ℝ))
    (factors : String → Option ℝ) (entryOf : CalcResult → Row)
    (origin dest : String) (manual : Option ℝ) (ac : String)
    (rf : Bool) (saf_pct : ℤ) (store : Store) (e : CalcErr)
    (h : (calculate_action airports factors entryOf origin dest manual
            ac rf saf_pct store).1 = .error e) :
    (calculate_action airports factors entryOf origin dest manual
        ac rf saf_pct store).2 = store := by
  unfold calculate_action at h ⊢
  cases hres : resolve_distance airports origin dest manual with
  | error e' => simp [hres]
  | ok dist =>
    cases hfac : factors ac with
    | none => simp [hres, hfac]
    | some f =>
      rw [hres, hfac] at h
      simp at h

/-- Witness for amended C3: an unknown aircraft type errors and leaves
the (non-existent) ledger untouched. -/
theorem calc_error_leaves_ledger_witness :
    (calculate_action (fun _ => none)
      (fun k => if k = "A320" then some (1 : ℝ) else none)
      (fun _ => ([] : Row)) "" "" (some 5) "ZZZ" false 0 none).2 = none :=
  calc_error_leaves_ledger (fun _ => none)
    (fun k => if k = "A320" then some (1 : ℝ) else none)
    (fun _ => ([] : Row)) "" "" (some 5) "ZZZ" false 0 none
    CalcErr.AircraftRequired rfl

/-- C10: when both airport fields are supplied and resolve, the
distance used is the great-circle distance between them and the whole
calculation is independent of the manual distance field; the manual
field drives the distance only when at least one airport field is
empty. -/
theorem airports_override_manual_distance
    (airports : String → Option (ℝ × ℝ)) (factors : String → Option ℝ)
    (entryOf : CalcResult → Row) (origin dest : String)
    (m1 m2 : Option ℝ) (ac : String) (rf : Bool) (saf_pct : ℤ)
    (store : Store) (a b : ℝ × ℝ)
    (h1 : origin ≠ "") (h2 : dest ≠ "")
    (ha : airports origin = some a) (hb : airports dest = some b) :
    resolve_distance airports origin dest m1
      = .ok (haversine_km a.1 a.2 b.1 b.2) ∧
    calculate_action airports factors entryOf origin dest m1 ac rf saf_pct store
      = calculate_action airports factors entryOf origin dest m2 ac rf saf_pct store ∧
    (∀ o' d' : String, ∀ dm : ℝ, (o' = "" ∨ d' = "") →
      resolve_distance airports o' d' (some dm) = .ok dm) := by
  have hres : ∀ m : Option ℝ, resolve_distance airports origin dest m
      = .ok (haversine_km a.1 a.2 b.1 b.2) := by
    intro m
    unfold resolve_distance
    rw [if_pos ⟨h1, h2⟩, ha, hb]
  refine ⟨hres m1, ?_, ?_⟩
  · unfold calculate_action
    rw [hres m1, hres m2]
  · intro o' d' dm hempty
    unfold resolve_distance
    rw [if_neg ?_]
    intro hand
    rcases hempty with he | he
    · exact hand.1 he
    · exact hand.2 he

/-- Witness for C10: with codes AAA and BBB resolving to concrete
coordinates, the manual field 42 vs 9 does not change the calculation,
and an empty origin falls back to the manual distance. -/
theorem airports_override_manual_distance_witness :
    calculate_action
        (fun k => if k = "AAA" then some ((10 : ℝ), 20) else
          if k = "BBB" then some ((30 : ℝ), 40) else none)
        (fun _ => none) (fun _ => ([] : Row)) "AAA" "BBB" (some 42) "X"
        false 0 none
      = calculate_action
        (fun k => if k = "AAA" then some ((10 : ℝ), 20) else
          if k = "BBB" then some ((30 : ℝ), 40) else none)
        (fun _ => none) (fun _ => ([] : Row)) "AAA" "BBB" (some 9) "X"
        false 0 none ∧
    resolve_distance
        (fun k => if k = "AAA" then some ((10 : ℝ), 20) else
          if k = "BBB" then some ((30 : ℝ), 40) else none)
        "" "BBB" (some 7) = .ok 7 := by
  have h := airports_override_manual_distance
    (fun k => if k = "AAA" then some ((10 : ℝ), 20) else
      if k = "BBB" then some ((30 : ℝ), 40) else none)
    (fun _ => none) (fun _ => ([] : Row)) "AAA" "BBB" (some 42) (some 9)
    "X" false 0 none (10, 20) (30, 40)
    (by decide) (by decide) rfl rfl
  exact ⟨h.2.1, h.2.2 "" "BBB" 7 (Or.inl rfl)⟩

end GreenSkies
